import Mathlib

/-!
Verification of the RapText-MultiCore CAPTCHA recognition orchestrator.

The definitions below are a shallow embedding of the two background
service-worker variants of the repository:

* the tiered-failover worker (`FAILOVER_CONFIG`, `failoverState`,
  `advanceFailover`, `checkCooldownRecovery`, `shouldFailover`,
  `solveWithFailover`, `handleCaptchaSolve`, `executeOpenRouterRequest`'s
  error construction, the NoPeCHA submit/poll loop and `cleanCaptchaText`);
* the cache-carrying worker in `background.js` (`hash`, `cleanText`,
  the `solve_captcha` / `report_login_success` message handlers and the
  single-slot pending candidate `lastSolved`).

Network calls are abstracted by oracles: a provider call becomes a lookup
in a sequence of outcomes, and a poll becomes a lookup in a sequence of
HTTP responses.  Everything else (state updates, branching, error
classification, text cleaning, hashing) is translated statement by
statement from the JavaScript source.
-/

/-- JavaScript `Error` object as thrown by the adapters: a `name`
(always `"Error"` for errors built with `new Error(...)`, `"AbortError"`
for an abort surfaced directly), a `message`, and the optional
`statusCode` property the source attaches. -/
structure JsError where
  name : String
  message : String
  statusCode : Option Nat
deriving Repr, DecidableEq

/-- The `FAILOVER_CONFIG` constant of the failover worker. -/
structure FailoverConfig where
  tier1Models : List String
  tier2Models : List String
  cooldownMs : Nat
  triggerCodes : List Nat
  timeoutMs : Nat
deriving Repr, DecidableEq

def FAILOVER_CONFIG : FailoverConfig :=
  { tier1Models := ["google/gemini-2.0-flash-exp:free",
                    "google/gemini-2.0-pro-exp-02-05:free"],
    tier2Models := ["amazon/nova-lite-v1:1.0",
                    "mistralai/mistral-small-24b-instruct-2501:free"],
    cooldownMs := 5 * 60 * 1000,
    triggerCodes := [429, 503, 404, 400, 500, 502],
    timeoutMs := 35000 }

/-- The mutable `failoverState` record: current tier, index of the model
inside the tier, and the timestamp of the last failover (JavaScript
`null` becomes `none`). -/
structure FailoverState where
  currentTier : Nat
  modelIndex : Nat
  lastFailoverTime : Option Nat
deriving Repr, DecidableEq

/-- Initial value of `failoverState` in the source. -/
def initialFailoverState : FailoverState :=
  { currentTier := 1, modelIndex := 0, lastFailoverTime := none }

/-- JavaScript truthiness of the `lastFailoverTime` field: `null` and the
number `0` are falsy, every other number is truthy. -/
def jsTruthyTime : Option Nat → Bool
  | none => false
  | some v => v != 0

/-- `getCurrentModelName()` from the failover worker.  The JavaScript
`|| 'Unknown'` fallback treats both a missing entry and an empty string
as falsy. -/
def getCurrentModelName (s : FailoverState) : String :=
  if s.currentTier == 1 then
    match FAILOVER_CONFIG.tier1Models[s.modelIndex]? with
    | some m => if m == "" then "Unknown" else m
    | none => "Unknown"
  else if s.currentTier == 2 then
    match FAILOVER_CONFIG.tier2Models[s.modelIndex]? with
    | some m => if m == "" then "Unknown" else m
    | none => "Unknown"
  else "NoPeCHA"

/-- `getStatusIndicator()` from the failover worker. -/
def getStatusIndicator (s : FailoverState) : String :=
  if s.currentTier == 1 then "🟢 Tier1-" ++ getCurrentModelName s
  else if s.currentTier == 2 then "🟡 Tier2-" ++ getCurrentModelName s
  else if s.currentTier == 3 then "🟠 Tier3-NoPeCHA"
  else "🔴 All Down"

/-- `checkCooldownRecovery()` from the failover worker, with the current
clock reading passed explicitly.  `Date.now() - lastFailoverTime` is
computed over `Int`, exactly as JavaScript number subtraction behaves on
timestamps. -/
def checkCooldownRecovery (now : Nat) (s : FailoverState) : FailoverState :=
  if s.currentTier > 1 && jsTruthyTime s.lastFailoverTime then
    let elapsed : Int := (now : Int) - ((s.lastFailoverTime.getD 0 : Nat) : Int)
    if elapsed ≥ (FAILOVER_CONFIG.cooldownMs : Int) then
      { currentTier := 1, modelIndex := 0, lastFailoverTime := none }
    else s
  else s

/-- `advanceFailover(reason)` from the failover worker (the `reason`
argument only feeds logging and is dropped).  `Date.now()` is passed as
`now`. -/
def advanceFailover (now : Nat) (s : FailoverState) : FailoverState :=
  let nextIndex := s.modelIndex + 1
  let maxIndex :=
    if s.currentTier == 1 then FAILOVER_CONFIG.tier1Models.length - 1
    else if s.currentTier == 2 then FAILOVER_CONFIG.tier2Models.length - 1
    else 0
  let tierIndex : Nat × Nat :=
    if nextIndex > maxIndex then (s.currentTier + 1, 0)
    else (s.currentTier, nextIndex)
  let s1 : FailoverState :=
    { currentTier := tierIndex.1, modelIndex := tierIndex.2,
      lastFailoverTime := some now }
  if s1.currentTier > 3 then { s1 with currentTier := 4 } else s1

/-- `needle` is a leading segment of `hay` (character lists). -/
def charsHasPre : List Char → List Char → Bool
  | [], _ => true
  | _ :: _, [] => false
  | c :: cs, d :: ds => c == d && charsHasPre cs ds

/-- `needle` occurs contiguously somewhere in `hay` (character lists). -/
def charsHasSub (needle : List Char) : List Char → Bool
  | [] => charsHasPre needle []
  | d :: ds => charsHasPre needle (d :: ds) || charsHasSub needle ds

/-- JavaScript `hay.includes(needle)`. -/
def jsIncludes (hay needle : String) : Bool :=
  charsHasSub needle.data hay.data

/-- `shouldFailover(statusCode, error)` from the failover worker.  An
absent `statusCode` (JavaScript `undefined`) is `none`;
`triggerCodes.includes(undefined)` is false. -/
def shouldFailover (statusCode : Option Nat) (e : JsError) : Bool :=
  if (match statusCode with
      | some c => FAILOVER_CONFIG.triggerCodes.contains c
      | none => false) then true
  else if e.name == "AbortError" then true
  else if jsIncludes e.message "empty" then true
  else if jsIncludes e.message "Failed to extract" then true
  else false

/-- The regex class `[A-Za-z0-9]` used by `cleanCaptchaText`. -/
def isJsAlnum (c : Char) : Bool :=
  ('A' ≤ c && c ≤ 'Z') || ('a' ≤ c && c ≤ 'z') || ('0' ≤ c && c ≤ '9')

/-- JavaScript `String.prototype.trim`: drop whitespace from both ends. -/
def jsTrim (s : String) : String :=
  String.mk
    (((s.data.dropWhile Char.isWhitespace).reverse.dropWhile
      Char.isWhitespace).reverse)

/-- `cleanCaptchaText(rawText)` from the failover worker: trim, drop every
character outside `[A-Za-z0-9]`, and accept only a cleaned length in
`[3, 8]`; otherwise throw the `Failed to extract ...` error (built with
`new Error`, so `name = "Error"` and no `statusCode`; the message embeds
`text.substring(0, 50)`). -/
def cleanCaptchaText (rawText : String) : Except JsError String :=
  let text := jsTrim rawText
  let cleaned := String.mk (text.data.filter isJsAlnum)
  if 3 ≤ cleaned.length && cleaned.length ≤ 8 then
    Except.ok cleaned
  else
    Except.error
      { name := "Error",
        message := "Failed to extract valid CAPTCHA from: \"" ++
          String.mk (text.data.take 50) ++ "...\"",
        statusCode := none }

/-- The error `executeOpenRouterRequest` throws when the `AbortController`
fires after `FAILOVER_CONFIG.timeoutMs`: the original `AbortError` is
caught and replaced by `new Error` with `statusCode = 408`. -/
def openRouterTimeoutError : JsError :=
  { name := "Error",
    message := "Timeout after " ++ toString FAILOVER_CONFIG.timeoutMs ++ "ms",
    statusCode := some 408 }

/-- The error `executeOpenRouterRequest` throws when the API key is
missing (`statusCode = 401`). -/
def missingApiKeyError : JsError :=
  { name := "Error", message := "API key is missing.", statusCode := some 401 }

/-- The `All tiers exhausted` error thrown when the failover loop is
entered with every tier already used up and no recorded last error. -/
def allExhaustedError : JsError :=
  { name := "Error", message := "All tiers exhausted", statusCode := none }

/-- Outcome of one provider-adapter invocation, as observed by the
failover loop: either a recognized text or a thrown `JsError`. -/
inductive Outcome where
  | success : String → Outcome
  | failure : JsError → Outcome
deriving Repr, DecidableEq

/-- Result of `solveWithFailover`: the returned text or the thrown error. -/
inductive SolveResult where
  | ok : String → SolveResult
  | err : JsError → SolveResult
deriving Repr, DecidableEq

/-- The `(currentTier, modelIndex)` pair identifying the provider a
state of the failover machine points at. -/
def providerAt (s : FailoverState) : Nat × Nat :=
  (s.currentTier, s.modelIndex)

/-- The `while (failoverState.currentTier <= 3)` loop of
`solveWithFailover`, instrumented with the ordered list of providers it
invokes.  `oracle k` is the outcome of the `k`-th adapter call of this
solve; `visited` accumulates the `(tier, index)` pairs invoked, in
order.  The loop always terminates within `4 - currentTier + 2` rounds
because every retryable failure strictly advances the state; `fuel = 6`
is enough from any state and the zero-fuel branch is unreachable from
the wrapper below. -/
def solveLoop (oracle : Nat → Outcome) (now : Nat) :
    Nat → FailoverState → List (Nat × Nat) → Option JsError →
    SolveResult × FailoverState × List (Nat × Nat)
  | 0, s, visited, lastError =>
    (SolveResult.err (lastError.getD allExhaustedError), s, visited)
  | fuel + 1, s, visited, lastError =>
    if s.currentTier > 3 then
      (SolveResult.err (lastError.getD allExhaustedError), s, visited)
    else
      match oracle visited.length with
      | Outcome.success text => (SolveResult.ok text, s, visited ++ [providerAt s])
      | Outcome.failure e =>
        if shouldFailover e.statusCode e then
          solveLoop oracle now fuel (advanceFailover now s)
            (visited ++ [providerAt s]) (some e)
        else
          (SolveResult.err e, s, visited ++ [providerAt s])

/-- `solveWithFailover(base64Image, apiKey)` from the failover worker,
over the call-outcome oracle.  Returns the result, the final state and
the ordered list of providers invoked. -/
def solveWithFailover (oracle : Nat → Outcome) (now : Nat)
    (s : FailoverState) : SolveResult × FailoverState × List (Nat × Nat) :=
  solveLoop oracle now 6 s [] none

/-- A response sent by `handleCaptchaSolve` via `sendResponse`: either
`{ text, status }` or `{ error, status }`. -/
inductive SolveResponse where
  | ok : String → String → SolveResponse
  | err : String → String → SolveResponse
deriving Repr, DecidableEq

/-- `handleCaptchaSolve(base64Image, sendResponse)` from the failover
worker: first `checkCooldownRecovery()`, then `getApiKey()` (modelled by
an optional key: `none` rejects with the options-page error), then
`solveWithFailover`.  Returns the response and the final failover
state. -/
def handleCaptchaSolve (now : Nat) (apiKey : Option String)
    (oracle : Nat → Outcome) (s : FailoverState) :
    SolveResponse × FailoverState :=
  let s1 := checkCooldownRecovery now s
  match apiKey with
  | none =>
    (SolveResponse.err "API key not found. Please set it on the options page."
      (getStatusIndicator s1), s1)
  | some _ =>
    match solveWithFailover oracle now s1 with
    | (SolveResult.ok text, s2, _) =>
      (SolveResponse.ok text (getStatusIndicator s2), s2)
    | (SolveResult.err e, s2, _) =>
      (SolveResponse.err e.message (getStatusIndicator s2), s2)

/-- The `NOPECHA_CONFIG` constant of the failover worker. -/
structure NopechaConfig where
  pollIntervalMs : Nat
  maxPollAttempts : Nat
deriving Repr, DecidableEq

def NOPECHA_CONFIG : NopechaConfig :=
  { pollIntervalMs := 500, maxPollAttempts := 20 }

/-- One HTTP response of the NoPeCHA retrieve endpoint as consumed by
the polling loop: the fetch-level `ok` flag and `status`, the raw `body`
text (used in error messages), the parsed `data` array (absent field
becomes `none`) and the parsed `error` field. -/
structure PollResponse where
  ok : Bool
  status : Nat
  body : String
  data : Option (List String)
  error : Option String
deriving Repr, DecidableEq

/-- Result of the polling loop: the recognized text or the thrown error. -/
inductive PollResult where
  | ok : String → PollResult
  | err : JsError → PollResult
deriving Repr, DecidableEq

/-- The timeout error thrown after the last poll attempt. -/
def nopechaTimeoutError : JsError :=
  { name := "Error", message := "NoPeCHA: Timeout waiting for result",
    statusCode := some 408 }

/-- The `for (let attempt = 1; attempt <= maxPollAttempts; attempt++)`
loop of `solveCaptchaWithNoPeCHA`, over the sequence of retrieve
responses.  `remaining` counts the poll attempts left, `polls` the
requests already made (doubling as the oracle index); the second
component of the result is the total number of poll requests performed.
Each iteration first sleeps `pollIntervalMs`, so the total wait is
`pollIntervalMs * polls`. -/
def nopechaPollLoop (responses : Nat → PollResponse) :
    Nat → Nat → PollResult × Nat
  | 0, polls => (PollResult.err nopechaTimeoutError, polls)
  | remaining + 1, polls =>
    let r := responses polls
    if !r.ok then
      if r.status == 202 then nopechaPollLoop responses remaining (polls + 1)
      else
        (PollResult.err
          { name := "Error",
            message := "NoPeCHA retrieve error " ++ toString r.status ++
              ": " ++ r.body,
            statusCode := some r.status }, polls + 1)
    else
      match r.data.bind List.head? with
      | some first =>
        if first.length > 0 then (PollResult.ok first, polls + 1)
        else
          match r.error with
          | some e =>
            (PollResult.err
              { name := "Error", message := "NoPeCHA: " ++ e,
                statusCode := some 0 }, polls + 1)
          | none => nopechaPollLoop responses remaining (polls + 1)
      | none =>
        match r.error with
        | some e =>
          (PollResult.err
            { name := "Error", message := "NoPeCHA: " ++ e,
              statusCode := some 0 }, polls + 1)
        | none => nopechaPollLoop responses remaining (polls + 1)

/-- The polling phase of `solveCaptchaWithNoPeCHA` (after a successful
submission returned a job id). -/
def nopechaPoll (responses : Nat → PollResponse) : PollResult × Nat :=
  nopechaPollLoop responses NOPECHA_CONFIG.maxPollAttempts 0

/-- `solveNoPeCHA(base64Image)` from `background.js`, over one submit
response: a missing key throws `NOPECHA_KEY_MISSING`; a non-ok response
throws `NOPECHA_<status>`; `data.data && data.data[0]` truthy returns
`data.data[0]` verbatim; otherwise `NOPECHA_EMPTY`. -/
def solveNoPeCHA (key : String) (resp : PollResponse) : Except String String :=
  if key == "" then Except.error "NOPECHA_KEY_MISSING"
  else if !resp.ok then Except.error ("NOPECHA_" ++ toString resp.status)
  else
    match resp.data.bind List.head? with
    | some first =>
      if first.length > 0 then Except.ok first
      else Except.error "NOPECHA_EMPTY"
    | none => Except.error "NOPECHA_EMPTY"

/-- `cleanText(raw)` from `background.js`: strip quotes and spaces, then
match the first run of 3-to-8 alphanumerics (a maximal alphanumeric run
longer than 8 still matches its first 8 characters). -/
def jsStripQuoteSpace (raw : String) : String :=
  String.mk (raw.data.filter fun c => !(c == '"' || c == '\'' || c == ' '))

/-- First match of the regex `[A-Za-z0-9]{3,8}`, scanning start
positions left to right: at each position the greedy match takes the
maximal alphanumeric run capped at 8 characters and succeeds when at
least 3 characters long. -/
def firstAlnumRun : List Char → Option String
  | [] => none
  | c :: cs =>
    let run := ((c :: cs).takeWhile isJsAlnum).take 8
    if run.length ≥ 3 then some (String.mk run)
    else firstAlnumRun cs

def cleanText (raw : String) : Except String String :=
  match firstAlnumRun (jsStripQuoteSpace raw).data with
  | some m => Except.ok m
  | none => Except.error "UNPARSEABLE"

/-- 32-bit signed wrap-around used by `Math.imul` and `| 0`. -/
def toInt32 (x : Int) : Int :=
  (x + 2 ^ 31) % 2 ^ 32 - 2 ^ 31

/-- `hash(s)` from `background.js`:
`h = (Math.imul(31, h) + s.charCodeAt(i)) | 0` folded over the UTF-16
code units, rendered in decimal. -/
def jsHash (s : String) : String :=
  toString (s.data.foldl (fun h c => toInt32 (toInt32 (31 * h) + c.toNat)) 0)

/-- State of the `background.js` worker: the current tier, the
single-slot pending candidate `lastSolved` (fingerprint and text), and
the durable `fingerprint → text` cache object. -/
structure BgState where
  currentTier : Nat
  lastSolved : Option (String × String)
  cache : List (String × String)
deriving Repr, DecidableEq

/-- Initial `state` of `background.js`. -/
def bgInitialState : BgState :=
  { currentTier := 1, lastSolved := none, cache := [] }

/-- JavaScript object read `cache[k]`. -/
def jsObjGet (cache : List (String × String)) (k : String) : Option String :=
  match cache.find? (fun p => p.1 == k) with
  | some p => some p.2
  | none => none

/-- JavaScript object write `cache[k] = v`: overwrite the key when
present, add it otherwise. -/
def jsObjSet : List (String × String) → String → String →
    List (String × String)
  | [], k, v => [(k, v)]
  | p :: ps, k, v =>
    if p.1 == k then (k, v) :: ps else p :: jsObjSet ps k v

/-- Outcome of one solver-engine call in `background.js` (NoPeCHA,
either OpenRouter model, or Mistral), network and parsing abstracted. -/
inductive BgOutcome where
  | success : String → BgOutcome
  | failure : String → BgOutcome
deriving Repr, DecidableEq

/-- Response sent by the `solve_captcha` handler. -/
inductive BgResponse where
  | ok : String → String → BgResponse
  | err : String → BgResponse
deriving Repr, DecidableEq

/-- `runSolve()` from the `solve_captcha` branch of `background.js`.
`oracle k` is the outcome of the `k`-th engine call of this request;
the third result component counts engine invocations.  Tier 1 with an
empty NoPeCHA key sets the tier to 2 and re-enters (`fuel = 2` covers
the single possible re-entry); tier 2 retries the second OpenRouter
model inside the same request; any error escalates the tier cyclically
(`(tier % 3) + 1`). -/
def bgRunSolve (nopechaKey : String) (oracle : Nat → BgOutcome)
    (imgHash : String) : Nat → BgState → Nat → BgResponse × BgState × Nat
  | 0, s, k => (BgResponse.err "out of fuel", s, k)
  | fuel + 1, s, k =>
    if s.currentTier == 1 then
      if nopechaKey == "" then
        bgRunSolve nopechaKey oracle imgHash fuel { s with currentTier := 2 } k
      else
        match oracle k with
        | BgOutcome.success r =>
          (BgResponse.ok r ("T" ++ toString s.currentTier),
            { s with lastSolved := some (imgHash, r) }, k + 1)
        | BgOutcome.failure m =>
          (BgResponse.err m,
            { s with currentTier := s.currentTier % 3 + 1 }, k + 1)
    else if s.currentTier == 2 then
      match oracle k with
      | BgOutcome.success r =>
        (BgResponse.ok r ("T" ++ toString s.currentTier),
          { s with lastSolved := some (imgHash, r) }, k + 1)
      | BgOutcome.failure _ =>
        match oracle (k + 1) with
        | BgOutcome.success r =>
          (BgResponse.ok r ("T" ++ toString s.currentTier),
            { s with lastSolved := some (imgHash, r) }, k + 2)
        | BgOutcome.failure m =>
          (BgResponse.err m,
            { s with currentTier := s.currentTier % 3 + 1 }, k + 2)
    else
      match oracle k with
      | BgOutcome.success r =>
        (BgResponse.ok r ("T" ++ toString s.currentTier),
          { s with lastSolved := some (imgHash, r) }, k + 1)
      | BgOutcome.failure m =>
        (BgResponse.err m,
          { s with currentTier := s.currentTier % 3 + 1 }, k + 1)

/-- The `solve_captcha` branch of the `background.js` message listener:
hash the image, answer `⚡ Cached` from the cache on a (truthy) hit with
no engine call, otherwise run `runSolve`. -/
def bgHandleSolveCaptcha (nopechaKey : String) (oracle : Nat → BgOutcome)
    (img : String) (s : BgState) : BgResponse × BgState × Nat :=
  let imgHash := jsHash img
  match jsObjGet s.cache imgHash with
  | some t =>
    if t == "" then bgRunSolve nopechaKey oracle imgHash 2 s 0
    else (BgResponse.ok t "⚡ Cached", s, 0)
  | none => bgRunSolve nopechaKey oracle imgHash 2 s 0

/-- The `report_login_success` branch of the `background.js` message
listener: commit the pending candidate to the cache and clear the slot;
a missing candidate leaves the state untouched. -/
def bgHandleLoginSuccess (s : BgState) : BgState :=
  match s.lastSolved with
  | some hv => { s with cache := jsObjSet s.cache hv.1 hv.2, lastSolved := none }
  | none => s

/-- Number of providers in a tier: two models in each of tiers 1 and 2,
and the single NoPeCHA provider in tier 3 (matching `maxIndex` in
`advanceFailover`, which is `length - 1` for tiers 1 and 2 and `0`
otherwise). -/
def tierProviderCount (tier : Nat) : Nat :=
  if tier == 1 then FAILOVER_CONFIG.tier1Models.length
  else if tier == 2 then FAILOVER_CONFIG.tier2Models.length
  else 1

/-- Every provider of every tier in the order the failover machine walks
them: `(tier, index)` pairs. -/
def allProviders : List (Nat × Nat) := [(1, 0), (1, 1), (2, 0), (2, 1), (3, 0)]

/-- Strict tier-then-index order on `(tier, index)` pairs. -/
def tierIndexLt (a b : Nat × Nat) : Prop :=
  a.1 < b.1 ∨ (a.1 = b.1 ∧ a.2 < b.2)

instance : DecidableRel tierIndexLt := fun a b =>
  inferInstanceAs (Decidable (a.1 < b.1 ∨ (a.1 = b.1 ∧ a.2 < b.2)))

/-- The `Failed to extract ...` error `cleanCaptchaText` throws, as a
function of the raw provider text. -/
def extractFailError (rawText : String) : JsError :=
  { name := "Error",
    message := "Failed to extract valid CAPTCHA from: \"" ++
      String.mk ((jsTrim rawText).data.take 50) ++ "...\"",
    statusCode := none }

/-!  ## Theorems  -/

/-- C1: `advanceFailover` on a non-terminal state `Tier(n, i)` moves to
index `i + 1` when that does not exceed the last index of the current
tier's provider list, and otherwise to index `0` of tier `n + 1`; it
always stamps `lastFailoverTime` with the current time; and the
resulting tier never exceeds `maxTier + 1 = 4`, the terminal exhausted
state. -/
theorem advanceFailover_spec (now : Nat) (s : FailoverState)
    (h1 : 1 ≤ s.currentTier) (h3 : s.currentTier ≤ 3)
    (hidx : s.modelIndex ≤ tierProviderCount s.currentTier - 1) :
    advanceFailover now s =
      (if s.modelIndex + 1 ≤ tierProviderCount s.currentTier - 1 then
        { currentTier := s.currentTier, modelIndex := s.modelIndex + 1,
          lastFailoverTime := some now }
      else if s.currentTier + 1 > 3 then
        { currentTier := 4, modelIndex := 0, lastFailoverTime := some now }
      else
        { currentTier := s.currentTier + 1, modelIndex := 0,
          lastFailoverTime := some now })
    ∧ (advanceFailover now s).currentTier ≤ 4 := by
  obtain ⟨tier, idx, t⟩ := s
  dsimp only at h1 h3 hidx ⊢
  interval_cases tier
  · rw [show tierProviderCount 1 - 1 = 1 from by decide] at hidx
    interval_cases idx <;> exact ⟨rfl, by simp [advanceFailover, FAILOVER_CONFIG]⟩
  · rw [show tierProviderCount 2 - 1 = 1 from by decide] at hidx
    interval_cases idx <;> exact ⟨rfl, by simp [advanceFailover, FAILOVER_CONFIG]⟩
  · rw [show tierProviderCount 3 - 1 = 0 from by decide] at hidx
    interval_cases idx <;> exact ⟨rfl, by simp [advanceFailover, FAILOVER_CONFIG]⟩

/-- `checkCooldownRecovery` is idempotent: a recovered state starts at
tier 1 and is left alone by a second evaluation. -/
theorem checkCooldownRecovery_idem (now : Nat) (s : FailoverState) :
    checkCooldownRecovery now (checkCooldownRecovery now s) =
      checkCooldownRecovery now s := by
  have key : checkCooldownRecovery now s =
      { currentTier := 1, modelIndex := 0, lastFailoverTime := none } ∨
      checkCooldownRecovery now s = s := by
    simp only [checkCooldownRecovery]
    split_ifs with hA hB
    · left; rfl
    · right; rfl
    · right; rfl
  rcases key with h | h
  · rw [h, show checkCooldownRecovery now
      (⟨1, 0, none⟩ : FailoverState) = ⟨1, 0, none⟩ from by
        simp [checkCooldownRecovery, jsTruthyTime]]
  · rw [h, h]

/-- C2: `checkCooldownRecovery` resets the failover state to
`Tier(1, 0)` and clears `lastAdvanceTimestamp` exactly when
`currentTier > 1` and the elapsed time since the last advance is at
least `cooldownMs`; at the boundary, `elapsed = cooldownMs - 1` does not
recover while `elapsed = cooldownMs` does, and the same rule recovers
the terminal exhausted state (`currentTier = 4`); finally, a top-level
solve request behaves as if the recovery had already been applied to its
starting state, because `handleCaptchaSolve` runs `checkCooldownRecovery`
first. -/
theorem checkCooldownRecovery_spec (now t : Nat) (s : FailoverState)
    (ht : s.lastFailoverTime = some t) (ht0 : 0 < t) :
    (checkCooldownRecovery now s =
      if s.currentTier > 1 ∧ t + FAILOVER_CONFIG.cooldownMs ≤ now then
        { currentTier := 1, modelIndex := 0, lastFailoverTime := none }
      else s)
    ∧ (checkCooldownRecovery (t + FAILOVER_CONFIG.cooldownMs - 1)
        { currentTier := 2, modelIndex := 0, lastFailoverTime := some t } =
        { currentTier := 2, modelIndex := 0, lastFailoverTime := some t })
    ∧ (checkCooldownRecovery (t + FAILOVER_CONFIG.cooldownMs)
        { currentTier := 2, modelIndex := 0, lastFailoverTime := some t } =
        { currentTier := 1, modelIndex := 0, lastFailoverTime := none })
    ∧ (checkCooldownRecovery (t + FAILOVER_CONFIG.cooldownMs)
        { currentTier := 4, modelIndex := 0, lastFailoverTime := some t } =
        { currentTier := 1, modelIndex := 0, lastFailoverTime := none })
    ∧ (checkCooldownRecovery (t + FAILOVER_CONFIG.cooldownMs - 1)
        { currentTier := 4, modelIndex := 0, lastFailoverTime := some t } =
        { currentTier := 4, modelIndex := 0, lastFailoverTime := some t })
    ∧ (∀ apiKey oracle,
        handleCaptchaSolve now apiKey oracle s =
          handleCaptchaSolve now apiKey oracle (checkCooldownRecovery now s)) := by
  have htne : (t != 0) = true := by simp; omega
  refine ⟨?_, ?_, ?_, ?_, ?_, ?_⟩
  · simp only [checkCooldownRecovery, ht, jsTruthyTime, htne, Bool.and_true,
      Option.getD, FAILOVER_CONFIG]
    split_ifs <;> simp_all <;> omega
  · simp only [checkCooldownRecovery, jsTruthyTime, htne, Bool.and_true,
      Option.getD, FAILOVER_CONFIG]
    split_ifs <;> simp_all
  · simp only [checkCooldownRecovery, jsTruthyTime, htne, Bool.and_true,
      Option.getD, FAILOVER_CONFIG]
    split_ifs <;> simp_all
  · simp only [checkCooldownRecovery, jsTruthyTime, htne, Bool.and_true,
      Option.getD, FAILOVER_CONFIG]
    split_ifs <;> simp_all
  · simp only [checkCooldownRecovery, jsTruthyTime, htne, Bool.and_true,
      Option.getD, FAILOVER_CONFIG]
    split_ifs <;> simp_all
  · intro apiKey oracle
    unfold handleCaptchaSolve
    rw [checkCooldownRecovery_idem]

/-- C2 witness: at `t = 1` a tier-2 state recovers exactly at the
cooldown boundary, the exhausted state recovers the same way, and a
top-level request on a recovered state is unchanged by pre-applying the
recovery. -/
theorem checkCooldownRecovery_spec_witness :
    (checkCooldownRecovery 300001 ⟨2, 0, some 1⟩ =
      if (2 : Nat) > 1 ∧ 1 + FAILOVER_CONFIG.cooldownMs ≤ 300001 then
        { currentTier := 1, modelIndex := 0, lastFailoverTime := none }
      else ⟨2, 0, some 1⟩)
    ∧ (checkCooldownRecovery (1 + FAILOVER_CONFIG.cooldownMs - 1)
        ⟨2, 0, some 1⟩ = ⟨2, 0, some 1⟩)
    ∧ (checkCooldownRecovery (1 + FAILOVER_CONFIG.cooldownMs)
        ⟨2, 0, some 1⟩ = ⟨1, 0, none⟩)
    ∧ (checkCooldownRecovery (1 + FAILOVER_CONFIG.cooldownMs)
        ⟨4, 0, some 1⟩ = ⟨1, 0, none⟩)
    ∧ (checkCooldownRecovery (1 + FAILOVER_CONFIG.cooldownMs - 1)
        ⟨4, 0, some 1⟩ = ⟨4, 0, some 1⟩)
    ∧ (∀ apiKey oracle,
        handleCaptchaSolve 300001 apiKey oracle ⟨2, 0, some 1⟩ =
          handleCaptchaSolve 300001 apiKey oracle
            (checkCooldownRecovery 300001 ⟨2, 0, some 1⟩)) :=
  checkCooldownRecovery_spec 300001 1 ⟨2, 0, some 1⟩ rfl (by decide)

/-- C1 witness: from `Tier(1, 0)` the machine advances to `Tier(1, 1)`
with the timestamp recorded. -/
theorem advanceFailover_spec_witness :
    advanceFailover 100 ⟨1, 0, none⟩ =
      (if 0 + 1 ≤ tierProviderCount 1 - 1 then
        { currentTier := 1, modelIndex := 0 + 1,
          lastFailoverTime := some 100 }
      else if 1 + 1 > 3 then
        { currentTier := 4, modelIndex := 0, lastFailoverTime := some 100 }
      else
        { currentTier := 1 + 1, modelIndex := 0,
          lastFailoverTime := some 100 })
    ∧ (advanceFailover 100 ⟨1, 0, none⟩).currentTier ≤ 4 :=
  advanceFailover_spec 100 ⟨1, 0, none⟩ (by decide) (by decide) (by decide)

/-- C3: the orchestrator does NOT treat a per-call timeout as retryable.
`executeOpenRouterRequest` replaces the fetch `AbortError` by a plain
`Error` with `statusCode = 408`; `408` is not in
`FAILOVER_CONFIG.triggerCodes` and the replacement error's name is no
longer `AbortError`, so `shouldFailover` returns `false` and the failover
loop propagates the timeout to the caller without advancing the state,
contradicting the claim that a timeout is always a retryable transient
failure. -/
theorem timeout_not_retryable_code_bug :
    shouldFailover openRouterTimeoutError.statusCode openRouterTimeoutError
      = false
    ∧ FAILOVER_CONFIG.triggerCodes.contains 408 = false
    ∧ openRouterTimeoutError.name ≠ "AbortError"
    ∧ solveWithFailover (fun _ => Outcome.failure openRouterTimeoutError) 0
        initialFailoverState =
      (SolveResult.err openRouterTimeoutError, initialFailoverState,
        [(1, 0)]) := by
  refine ⟨by decide, by decide, by decide, by decide⟩

/-- One retryable-failure step of the loop: the failing provider is
appended to the visited list and the state advances. -/
theorem solveLoop_fail_step (oracle : Nat → Outcome) (now fuel : Nat)
    (s : FailoverState) (acc : List (Nat × Nat)) (last : Option JsError)
    (e : JsError) (h3 : ¬ s.currentTier > 3)
    (ho : oracle acc.length = Outcome.failure e)
    (hsf : shouldFailover e.statusCode e = true) :
    solveLoop oracle now (fuel + 1) s acc last =
      solveLoop oracle now fuel (advanceFailover now s)
        (acc ++ [providerAt s]) (some e) := by
  simp [solveLoop, h3, ho, hsf]

/-- Whatever the loop does after its accumulator is seeded, the seed
stays a leading segment of the final visited list. -/
theorem solveLoop_visited_extends (oracle : Nat → Outcome) (now : Nat) :
    ∀ fuel s acc last, ∃ rest,
      (solveLoop oracle now fuel s acc last).2.2 = acc ++ rest := by
  intro fuel
  induction fuel with
  | zero =>
    intro s acc last
    exact ⟨[], by simp [solveLoop]⟩
  | succ n ih =>
    intro s acc last
    by_cases h : s.currentTier > 3
    · exact ⟨[], by simp [solveLoop, h]⟩
    · cases ho : oracle acc.length with
      | success t =>
        exact ⟨[providerAt s], by simp [solveLoop, h, ho]⟩
      | failure e =>
        by_cases hsf : shouldFailover e.statusCode e = true
        · obtain ⟨rest, hr⟩ :=
            ih (advanceFailover now s) (acc ++ [providerAt s]) (some e)
          refine ⟨providerAt s :: rest, ?_⟩
          simp only [solveLoop, if_neg h, ho, hsf, if_true, hr]
          simp
        · refine ⟨[providerAt s], ?_⟩
          simp only [solveLoop, if_neg h, ho, Bool.not_eq_true] at hsf ⊢
          simp [hsf]

/-- C4: under any sequence of `N < 5` consecutive retryable failures
(5 = total number of providers across all tiers), the failover loop
invokes exactly the first `N + 1` providers of the canonical
tier-then-index walk `(1,0), (1,1), (2,0), (2,1), (3,0)`; that canonical
walk never repeats a provider and is strictly ordered by tier, then
index. -/
theorem failover_visit_order (oracle : Nat → Outcome) (es : Nat → JsError)
    (now : Nat) (N : Nat) (hN : N < 5)
    (hfail : ∀ k, k < N → oracle k = Outcome.failure (es k) ∧
      shouldFailover (es k).statusCode (es k) = true) :
    (solveWithFailover oracle now initialFailoverState).2.2.take (N + 1) =
      allProviders.take (N + 1)
    ∧ allProviders.Pairwise (fun a b => a ≠ b)
    ∧ List.Chain' tierIndexLt allProviders := by
  refine ⟨?_, by decide, by simp [allProviders, List.chain'_cons, tierIndexLt]⟩
  interval_cases N
  · unfold solveWithFailover initialFailoverState
    rcases ho : oracle 0 with t | e
    · rw [show solveLoop oracle now 6 (⟨1, 0, none⟩ : FailoverState) ([] : List (Nat × Nat)) none =
        (SolveResult.ok t, (⟨1, 0, none⟩ : FailoverState), ([] : List (Nat × Nat)) ++ [(1, 0)]) from by
        simp [solveLoop, ho, providerAt]]
      rfl
    · by_cases hsf : shouldFailover e.statusCode e = true
      · rw [solveLoop_fail_step oracle now 5 (⟨1, 0, none⟩ : FailoverState) ([] : List (Nat × Nat))
          none e (by simp) (by simpa using ho) hsf]
        obtain ⟨rest, hr⟩ := solveLoop_visited_extends oracle now 5
          (advanceFailover now (⟨1, 0, none⟩ : FailoverState))
          (([] : List (Nat × Nat)) ++ [providerAt (⟨1, 0, none⟩ : FailoverState)]) (some e)
        rw [hr]
        simp [providerAt, allProviders]
      · rw [show solveLoop oracle now 6 (⟨1, 0, none⟩ : FailoverState) ([] : List (Nat × Nat)) none =
          (SolveResult.err e, (⟨1, 0, none⟩ : FailoverState), ([] : List (Nat × Nat)) ++ [(1, 0)]) from by
          simp [solveLoop, ho, hsf, providerAt]]
        rfl
  · obtain ⟨e0, sf0⟩ := hfail 0 (by omega)
    unfold solveWithFailover initialFailoverState
    rw [solveLoop_fail_step oracle now 5 (⟨1, 0, none⟩ : FailoverState) ([] : List (Nat × Nat))
      none (es 0) (by simp) (by simpa using e0) sf0]
    rw [show advanceFailover now (⟨1, 0, none⟩ : FailoverState) = (⟨1, 1, some now⟩ : FailoverState) from by
      simp [advanceFailover, FAILOVER_CONFIG]]
    rw [show ([] : List (Nat × Nat)) ++ [providerAt (⟨1, 0, none⟩ : FailoverState)] = ([(1, 0)] : List (Nat × Nat)) from by
      simp [providerAt]]
    rcases ho : oracle 1 with t | e
    · rw [show solveLoop oracle now 5 (⟨1, 1, some now⟩ : FailoverState) ([(1, 0)] : List (Nat × Nat)) (some (es 0)) =
        (SolveResult.ok t, (⟨1, 1, some now⟩ : FailoverState), ([(1, 0)] : List (Nat × Nat)) ++ [(1, 1)]) from by
        simp [solveLoop, ho, providerAt]]
      rfl
    · by_cases hsf : shouldFailover e.statusCode e = true
      · rw [solveLoop_fail_step oracle now 4 (⟨1, 1, some now⟩ : FailoverState) ([(1, 0)] : List (Nat × Nat))
          (some (es 0)) e (by simp) (by simpa using ho) hsf]
        obtain ⟨rest, hr⟩ := solveLoop_visited_extends oracle now 4
          (advanceFailover now (⟨1, 1, some now⟩ : FailoverState))
          (([(1, 0)] : List (Nat × Nat)) ++ [providerAt (⟨1, 1, some now⟩ : FailoverState)]) (some e)
        rw [hr]
        simp [providerAt, allProviders]
      · rw [show solveLoop oracle now 5 (⟨1, 1, some now⟩ : FailoverState) ([(1, 0)] : List (Nat × Nat)) (some (es 0)) =
          (SolveResult.err e, (⟨1, 1, some now⟩ : FailoverState), ([(1, 0)] : List (Nat × Nat)) ++ [(1, 1)]) from by
          simp [solveLoop, ho, hsf, providerAt]]
        rfl
  · obtain ⟨e0, sf0⟩ := hfail 0 (by omega)
    obtain ⟨e1, sf1⟩ := hfail 1 (by omega)
    unfold solveWithFailover initialFailoverState
    rw [solveLoop_fail_step oracle now 5 (⟨1, 0, none⟩ : FailoverState) ([] : List (Nat × Nat))
      none (es 0) (by simp) (by simpa using e0) sf0]
    rw [show advanceFailover now (⟨1, 0, none⟩ : FailoverState) = (⟨1, 1, some now⟩ : FailoverState) from by
      simp [advanceFailover, FAILOVER_CONFIG]]
    rw [show ([] : List (Nat × Nat)) ++ [providerAt (⟨1, 0, none⟩ : FailoverState)] = ([(1, 0)] : List (Nat × Nat)) from by
      simp [providerAt]]
    rw [solveLoop_fail_step oracle now 4 (⟨1, 1, some now⟩ : FailoverState) ([(1, 0)] : List (Nat × Nat))
      (some (es 0)) (es 1) (by simp) (by simpa using e1) sf1]
    rw [show advanceFailover now (⟨1, 1, some now⟩ : FailoverState) = (⟨2, 0, some now⟩ : FailoverState) from by
      simp [advanceFailover, FAILOVER_CONFIG]]
    rw [show ([(1, 0)] : List (Nat × Nat)) ++ [providerAt (⟨1, 1, some now⟩ : FailoverState)] = ([(1, 0), (1, 1)] : List (Nat × Nat)) from by
      simp [providerAt]]
    rcases ho : oracle 2 with t | e
    · rw [show solveLoop oracle now 4 (⟨2, 0, some now⟩ : FailoverState) ([(1, 0), (1, 1)] : List (Nat × Nat)) (some (es 1)) =
        (SolveResult.ok t, (⟨2, 0, some now⟩ : FailoverState), ([(1, 0), (1, 1)] : List (Nat × Nat)) ++ [(2, 0)]) from by
        simp [solveLoop, ho, providerAt]]
      rfl
    · by_cases hsf : shouldFailover e.statusCode e = true
      · rw [solveLoop_fail_step oracle now 3 (⟨2, 0, some now⟩ : FailoverState) ([(1, 0), (1, 1)] : List (Nat × Nat))
          (some (es 1)) e (by simp) (by simpa using ho) hsf]
        obtain ⟨rest, hr⟩ := solveLoop_visited_extends oracle now 3
          (advanceFailover now (⟨2, 0, some now⟩ : FailoverState))
          (([(1, 0), (1, 1)] : List (Nat × Nat)) ++ [providerAt (⟨2, 0, some now⟩ : FailoverState)]) (some e)
        rw [hr]
        simp [providerAt, allProviders]
      · rw [show solveLoop oracle now 4 (⟨2, 0, some now⟩ : FailoverState) ([(1, 0), (1, 1)] : List (Nat × Nat)) (some (es 1)) =
          (SolveResult.err e, (⟨2, 0, some now⟩ : FailoverState), ([(1, 0), (1, 1)] : List (Nat × Nat)) ++ [(2, 0)]) from by
          simp [solveLoop, ho, hsf, providerAt]]
        rfl
  · obtain ⟨e0, sf0⟩ := hfail 0 (by omega)
    obtain ⟨e1, sf1⟩ := hfail 1 (by omega)
    obtain ⟨e2, sf2⟩ := hfail 2 (by omega)
    unfold solveWithFailover initialFailoverState
    rw [solveLoop_fail_step oracle now 5 (⟨1, 0, none⟩ : FailoverState) ([] : List (Nat × Nat))
      none (es 0) (by simp) (by simpa using e0) sf0]
    rw [show advanceFailover now (⟨1, 0, none⟩ : FailoverState) = (⟨1, 1, some now⟩ : FailoverState) from by
      simp [advanceFailover, FAILOVER_CONFIG]]
    rw [show ([] : List (Nat × Nat)) ++ [providerAt (⟨1, 0, none⟩ : FailoverState)] = ([(1, 0)] : List (Nat × Nat)) from by
      simp [providerAt]]
    rw [solveLoop_fail_step oracle now 4 (⟨1, 1, some now⟩ : FailoverState) ([(1, 0)] : List (Nat × Nat))
      (some (es 0)) (es 1) (by simp) (by simpa using e1) sf1]
    rw [show advanceFailover now (⟨1, 1, some now⟩ : FailoverState) = (⟨2, 0, some now⟩ : FailoverState) from by
      simp [advanceFailover, FAILOVER_CONFIG]]
    rw [show ([(1, 0)] : List (Nat × Nat)) ++ [providerAt (⟨1, 1, some now⟩ : FailoverState)] = ([(1, 0), (1, 1)] : List (Nat × Nat)) from by
      simp [providerAt]]
    rw [solveLoop_fail_step oracle now 3 (⟨2, 0, some now⟩ : FailoverState) ([(1, 0), (1, 1)] : List (Nat × Nat))
      (some (es 1)) (es 2) (by simp) (by simpa using e2) sf2]
    rw [show advanceFailover now (⟨2, 0, some now⟩ : FailoverState) = (⟨2, 1, some now⟩ : FailoverState) from by
      simp [advanceFailover, FAILOVER_CONFIG]]
    rw [show ([(1, 0), (1, 1)] : List (Nat × Nat)) ++ [providerAt (⟨2, 0, some now⟩ : FailoverState)] = ([(1, 0), (1, 1), (2, 0)] : List (Nat × Nat)) from by
      simp [providerAt]]
    rcases ho : oracle 3 with t | e
    · rw [show solveLoop oracle now 3 (⟨2, 1, some now⟩ : FailoverState) ([(1, 0), (1, 1), (2, 0)] : List (Nat × Nat)) (some (es 2)) =
        (SolveResult.ok t, (⟨2, 1, some now⟩ : FailoverState), ([(1, 0), (1, 1), (2, 0)] : List (Nat × Nat)) ++ [(2, 1)]) from by
        simp [solveLoop, ho, providerAt]]
      rfl
    · by_cases hsf : shouldFailover e.statusCode e = true
      · rw [solveLoop_fail_step oracle now 2 (⟨2, 1, some now⟩ : FailoverState) ([(1, 0), (1, 1), (2, 0)] : List (Nat × Nat))
          (some (es 2)) e (by simp) (by simpa using ho) hsf]
        obtain ⟨rest, hr⟩ := solveLoop_visited_extends oracle now 2
          (advanceFailover now (⟨2, 1, some now⟩ : FailoverState))
          (([(1, 0), (1, 1), (2, 0)] : List (Nat × Nat)) ++ [providerAt (⟨2, 1, some now⟩ : FailoverState)]) (some e)
        rw [hr]
        simp [providerAt, allProviders]
      · rw [show solveLoop oracle now 3 (⟨2, 1, some now⟩ : FailoverState) ([(1, 0), (1, 1), (2, 0)] : List (Nat × Nat)) (some (es 2)) =
          (SolveResult.err e, (⟨2, 1, some now⟩ : FailoverState), ([(1, 0), (1, 1), (2, 0)] : List (Nat × Nat)) ++ [(2, 1)]) from by
          simp [solveLoop, ho, hsf, providerAt]]
        rfl
  · obtain ⟨e0, sf0⟩ := hfail 0 (by omega)
    obtain ⟨e1, sf1⟩ := hfail 1 (by omega)
    obtain ⟨e2, sf2⟩ := hfail 2 (by omega)
    obtain ⟨e3, sf3⟩ := hfail 3 (by omega)
    unfold solveWithFailover initialFailoverState
    rw [solveLoop_fail_step oracle now 5 (⟨1, 0, none⟩ : FailoverState) ([] : List (Nat × Nat))
      none (es 0) (by simp) (by simpa using e0) sf0]
    rw [show advanceFailover now (⟨1, 0, none⟩ : FailoverState) = (⟨1, 1, some now⟩ : FailoverState) from by
      simp [advanceFailover, FAILOVER_CONFIG]]
    rw [show ([] : List (Nat × Nat)) ++ [providerAt (⟨1, 0, none⟩ : FailoverState)] = ([(1, 0)] : List (Nat × Nat)) from by
      simp [providerAt]]
    rw [solveLoop_fail_step oracle now 4 (⟨1, 1, some now⟩ : FailoverState) ([(1, 0)] : List (Nat × Nat))
      (some (es 0)) (es 1) (by simp) (by simpa using e1) sf1]
    rw [show advanceFailover now (⟨1, 1, some now⟩ : FailoverState) = (⟨2, 0, some now⟩ : FailoverState) from by
      simp [advanceFailover, FAILOVER_CONFIG]]
    rw [show ([(1, 0)] : List (Nat × Nat)) ++ [providerAt (⟨1, 1, some now⟩ : FailoverState)] = ([(1, 0), (1, 1)] : List (Nat × Nat)) from by
      simp [providerAt]]
    rw [solveLoop_fail_step oracle now 3 (⟨2, 0, some now⟩ : FailoverState) ([(1, 0), (1, 1)] : List (Nat × Nat))
      (some (es 1)) (es 2) (by simp) (by simpa using e2) sf2]
    rw [show advanceFailover now (⟨2, 0, some now⟩ : FailoverState) = (⟨2, 1, some now⟩ : FailoverState) from by
      simp [advanceFailover, FAILOVER_CONFIG]]
    rw [show ([(1, 0), (1, 1)] : List (Nat × Nat)) ++ [providerAt (⟨2, 0, some now⟩ : FailoverState)] = ([(1, 0), (1, 1), (2, 0)] : List (Nat × Nat)) from by
      simp [providerAt]]
    rw [solveLoop_fail_step oracle now 2 (⟨2, 1, some now⟩ : FailoverState) ([(1, 0), (1, 1), (2, 0)] : List (Nat × Nat))
      (some (es 2)) (es 3) (by simp) (by simpa using e3) sf3]
    rw [show advanceFailover now (⟨2, 1, some now⟩ : FailoverState) = (⟨3, 0, some now⟩ : FailoverState) from by
      simp [advanceFailover, FAILOVER_CONFIG]]
    rw [show ([(1, 0), (1, 1), (2, 0)] : List (Nat × Nat)) ++ [providerAt (⟨2, 1, some now⟩ : FailoverState)] = ([(1, 0), (1, 1), (2, 0), (2, 1)] : List (Nat × Nat)) from by
      simp [providerAt]]
    rcases ho : oracle 4 with t | e
    · rw [show solveLoop oracle now 2 (⟨3, 0, some now⟩ : FailoverState) ([(1, 0), (1, 1), (2, 0), (2, 1)] : List (Nat × Nat)) (some (es 3)) =
        (SolveResult.ok t, (⟨3, 0, some now⟩ : FailoverState), ([(1, 0), (1, 1), (2, 0), (2, 1)] : List (Nat × Nat)) ++ [(3, 0)]) from by
        simp [solveLoop, ho, providerAt]]
      rfl
    · by_cases hsf : shouldFailover e.statusCode e = true
      · rw [solveLoop_fail_step oracle now 1 (⟨3, 0, some now⟩ : FailoverState) ([(1, 0), (1, 1), (2, 0), (2, 1)] : List (Nat × Nat))
          (some (es 3)) e (by simp) (by simpa using ho) hsf]
        obtain ⟨rest, hr⟩ := solveLoop_visited_extends oracle now 1
          (advanceFailover now (⟨3, 0, some now⟩ : FailoverState))
          (([(1, 0), (1, 1), (2, 0), (2, 1)] : List (Nat × Nat)) ++ [providerAt (⟨3, 0, some now⟩ : FailoverState)]) (some e)
        rw [hr]
        simp [providerAt, allProviders]
      · rw [show solveLoop oracle now 2 (⟨3, 0, some now⟩ : FailoverState) ([(1, 0), (1, 1), (2, 0), (2, 1)] : List (Nat × Nat)) (some (es 3)) =
          (SolveResult.err e, (⟨3, 0, some now⟩ : FailoverState), ([(1, 0), (1, 1), (2, 0), (2, 1)] : List (Nat × Nat)) ++ [(3, 0)]) from by
          simp [solveLoop, ho, hsf, providerAt]]
        rfl

/-- C4 witness: with every call failing with a rate-limit error (HTTP
429, retryable), four consecutive failures walk the providers
`(1,0), (1,1), (2,0), (2,1), (3,0)` in order. -/
theorem failover_visit_order_witness :
    ((solveWithFailover
        (fun _ => Outcome.failure ⟨"Error", "API error 429: limit", some 429⟩)
        7 initialFailoverState).2.2.take (4 + 1) =
      allProviders.take (4 + 1)
    ∧ allProviders.Pairwise (fun a b => a ≠ b)
    ∧ List.Chain' tierIndexLt allProviders) :=
  failover_visit_order
    (fun _ => Outcome.failure ⟨"Error", "API error 429: limit", some 429⟩)
    (fun _ => ⟨"Error", "API error 429: limit", some 429⟩) 7 4 (by omega)
    (fun k hk =>
      ⟨rfl, by
        show shouldFailover (some 429)
          ⟨"Error", "API error 429: limit", some 429⟩ = true
        decide⟩)

/-- C5: a non-retryable failure (for example the missing-credential
error) from the current provider makes the failover loop return that
error immediately: exactly one provider is invoked, no further provider
or tier is tried, and `currentTier` and `modelIndex` are unchanged. -/
theorem nonretryable_propagates (oracle : Nat → Outcome) (now : Nat)
    (s : FailoverState) (h3 : s.currentTier ≤ 3) (e : JsError)
    (ho : oracle 0 = Outcome.failure e)
    (hnr : shouldFailover e.statusCode e = false) :
    solveWithFailover oracle now s =
      (SolveResult.err e, s, [providerAt s]) := by
  unfold solveWithFailover
  have h3' : ¬ s.currentTier > 3 := by omega
  simp [solveLoop, h3', ho, hnr]

/-- C5 witness: the missing-API-key error (status 401) at `Tier(1, 0)`
propagates with the state untouched and a single invocation. -/
theorem nonretryable_propagates_witness :
    solveWithFailover (fun _ => Outcome.failure missingApiKeyError) 3
      initialFailoverState =
      (SolveResult.err missingApiKeyError, initialFailoverState,
        [providerAt initialFailoverState]) :=
  nonretryable_propagates (fun _ => Outcome.failure missingApiKeyError) 3
    initialFailoverState (by decide) missingApiKeyError rfl (by decide)

/-- The poll counter grows by at most the remaining attempt budget. -/
theorem nopechaPollLoop_polls_le (responses : Nat → PollResponse) :
    ∀ remaining polls,
      (nopechaPollLoop responses remaining polls).2 ≤ polls + remaining := by
  intro remaining
  induction remaining with
  | zero => intro polls; simp [nopechaPollLoop]
  | succ n ih =>
    intro polls
    simp only [nopechaPollLoop]
    by_cases hok : (!(responses polls).ok) = true
    · rw [if_pos hok]
      by_cases h202 : ((responses polls).status == 202) = true
      · rw [if_pos h202]
        have := ih (polls + 1)
        omega
      · rw [if_neg h202]
        simp only
        omega
    · rw [if_neg hok]
      cases hd : (responses polls).data.bind List.head? with
      | some first =>
        simp only [hd]
        by_cases hlen : first.length > 0
        · rw [if_pos hlen]
          simp only
          omega
        · rw [if_neg hlen]
          cases herr : (responses polls).error with
          | some e =>
            simp only
            omega
          | none =>
            have := ih (polls + 1)
            simp only
            omega
      | none =>
        simp only [hd]
        cases herr : (responses polls).error with
        | some e =>
          simp only
          omega
        | none =>
          have := ih (polls + 1)
          simp only
          omega

/-- If every retrieve response is a 202, every attempt keeps polling and
the loop ends in the timeout error after using the whole budget. -/
theorem nopechaPollLoop_all202 (responses : Nat → PollResponse)
    (h202 : ∀ j, (responses j).ok = false ∧ (responses j).status = 202) :
    ∀ remaining polls,
      nopechaPollLoop responses remaining polls =
        (PollResult.err nopechaTimeoutError, polls + remaining) := by
  intro remaining
  induction remaining with
  | zero => intro polls; simp [nopechaPollLoop]
  | succ n ih =>
    intro polls
    have h1 := (h202 polls).1
    have h2 := (h202 polls).2
    simp only [nopechaPollLoop, h1, h2]
    rw [ih (polls + 1)]
    have harith : polls + 1 + n = polls + (n + 1) := by omega
    rw [harith]
    simp

/-- C7: the NoPeCHA polling phase performs at most
`maxPollAttempts = 20` poll requests; an HTTP 202 response means "keep
polling" (one more attempt is consumed, nothing fails); when every
response stays 202 the loop stops after exactly `maxPollAttempts` polls
with the timeout error (statusCode 408) instead of looping forever, and
the total time slept is `pollIntervalMs * maxPollAttempts = 10000` ms. -/
theorem nopechaPoll_spec :
    (∀ responses : Nat → PollResponse,
      (nopechaPoll responses).2 ≤ NOPECHA_CONFIG.maxPollAttempts)
    ∧ (∀ (responses : Nat → PollResponse) remaining polls,
        (responses polls).ok = false → (responses polls).status = 202 →
        nopechaPollLoop responses (remaining + 1) polls =
          nopechaPollLoop responses remaining (polls + 1))
    ∧ (∀ responses : Nat → PollResponse,
        (∀ j, (responses j).ok = false ∧ (responses j).status = 202) →
        nopechaPoll responses =
          (PollResult.err nopechaTimeoutError, NOPECHA_CONFIG.maxPollAttempts))
    ∧ nopechaTimeoutError.statusCode = some 408
    ∧ NOPECHA_CONFIG.pollIntervalMs * NOPECHA_CONFIG.maxPollAttempts
        = 10000 := by
  refine ⟨?_, ?_, ?_, rfl, rfl⟩
  · intro responses
    have := nopechaPollLoop_polls_le responses NOPECHA_CONFIG.maxPollAttempts 0
    simpa [nopechaPoll] using this
  · intro responses remaining polls h1 h2
    simp [nopechaPollLoop, h1, h2]
  · intro responses h202
    have := nopechaPollLoop_all202 responses h202 NOPECHA_CONFIG.maxPollAttempts 0
    simpa [nopechaPoll] using this

/-- C7 witness: a retrieve endpoint that always answers 202 makes the
poll phase fail with the 408 timeout error after exactly 20 polls. -/
theorem nopechaPoll_spec_witness :
    nopechaPoll (fun _ => ⟨false, 202, "", none, none⟩) =
      (PollResult.err nopechaTimeoutError, NOPECHA_CONFIG.maxPollAttempts) :=
  nopechaPoll_spec.2.2.1 (fun _ => ⟨false, 202, "", none, none⟩)
    (fun _ => ⟨rfl, rfl⟩)

/-- C10: when a NoPeCHA poll response carries a non-empty first result
string, the polling loop returns that string verbatim — no trimming, no
stripping of non-alphanumerics, and no 3-to-8 length check are applied —
and the `background.js` NoPeCHA adapter equally returns the first
element of `data` verbatim, so this adapter's results bypass the
token-format constraint the synchronous adapters enforce. -/
theorem nopecha_result_verbatim (responses : Nat → PollResponse)
    (remaining polls : Nat) (first : String)
    (hok : (responses polls).ok = true)
    (hdata : (responses polls).data.bind List.head? = some first)
    (hlen : first.length > 0) :
    nopechaPollLoop responses (remaining + 1) polls =
      (PollResult.ok first, polls + 1)
    ∧ (∀ key resp, key ≠ "" → resp.ok = true →
        resp.data.bind List.head? = some first →
        solveNoPeCHA key resp = Except.ok first) := by
  constructor
  · simp [nopechaPollLoop, hok, hdata, hlen]
  · intro key resp hkey hrok hrdata
    simp [solveNoPeCHA, hkey, hrok, hrdata, hlen]

/-- C10 witness: the raw string `"  raw !! text  "` (spaces,
punctuation, length 15) is returned untouched by the poll loop and by
the `background.js` adapter. -/
theorem nopecha_result_verbatim_witness :
    nopechaPollLoop (fun _ => ⟨true, 200, "", some ["  raw !! text  "], none⟩)
      (0 + 1) 0 = (PollResult.ok "  raw !! text  ", 0 + 1)
    ∧ (∀ key resp, key ≠ "" → resp.ok = true →
        resp.data.bind List.head? = some "  raw !! text  " →
        solveNoPeCHA key resp = Except.ok "  raw !! text  ") :=
  nopecha_result_verbatim
    (fun _ => ⟨true, 200, "", some ["  raw !! text  "], none⟩) 0 0
    "  raw !! text  " rfl rfl (by decide)

/-- A leading-segment test survives extending the larger list on the
right. -/
theorem charsHasPre_append (p a b : List Char)
    (h : charsHasPre p a = true) : charsHasPre p (a ++ b) = true := by
  induction p generalizing a with
  | nil => simp [charsHasPre]
  | cons c cs ih =>
    cases a with
    | nil => simp [charsHasPre] at h
    | cons d ds =>
      simp only [charsHasPre, Bool.and_eq_true] at h
      simp only [List.cons_append, charsHasPre, Bool.and_eq_true]
      exact ⟨h.1, ih ds h.2⟩

/-- A leading segment is in particular a contiguous occurrence. -/
theorem charsHasSub_of_pre (p a : List Char)
    (h : charsHasPre p a = true) : charsHasSub p a = true := by
  cases a with
  | nil => simpa [charsHasSub] using h
  | cons d ds => simp [charsHasSub, h]

/-- The `Failed to extract ...` error is always classified as retryable
by `shouldFailover`, because its message contains the
`Failed to extract` marker. -/
theorem extract_error_retryable (raw : String) :
    shouldFailover (extractFailError raw).statusCode
      (extractFailError raw) = true := by
  have hpre : charsHasPre "Failed to extract".data
      "Failed to extract valid CAPTCHA from: \"".data = true := by decide
  have h1 := charsHasPre_append "Failed to extract".data
    "Failed to extract valid CAPTCHA from: \"".data
    ((String.mk ((jsTrim raw).data.take 50)).data ++ "...\"".data) hpre
  have h2 := charsHasSub_of_pre _ _ h1
  have hfe : jsIncludes (extractFailError raw).message "Failed to extract"
      = true := by
    simpa [jsIncludes, extractFailError, List.append_assoc] using h2
  simp only [extractFailError] at hfe
  unfold shouldFailover
  simp only [extractFailError]
  split_ifs <;> simp_all

/-- C8: the synchronous adapters' parse step strips non-alphanumeric
characters and accepts the cleaned token only at lengths 3 to 8: the raw
provider text `"  AB12!! "` yields `"AB12"`, while any raw text whose
cleaned form has length 2 fails with the `Failed to extract` error; that
error is classified retryable by `shouldFailover`, so the loop advances
to the next provider, which can then succeed. -/
theorem cleanCaptchaText_spec (raw : String) (now : Nat)
    (h2 : ((jsTrim raw).data.filter isJsAlnum).length = 2) :
    cleanCaptchaText "  AB12!! " = Except.ok "AB12"
    ∧ cleanCaptchaText raw = Except.error (extractFailError raw)
    ∧ shouldFailover (extractFailError raw).statusCode
        (extractFailError raw) = true
    ∧ solveWithFailover
        (fun k => if k = 0 then Outcome.failure (extractFailError raw)
          else Outcome.success "XYZ9") now initialFailoverState =
      (SolveResult.ok "XYZ9", ⟨1, 1, some now⟩, [(1, 0), (1, 1)]) := by
  refine ⟨rfl, ?_, extract_error_retryable raw, ?_⟩
  · have hL : (String.mk ((jsTrim raw).data.filter isJsAlnum)).length = 2 :=
      h2
    simp only [cleanCaptchaText, hL]
    norm_num [extractFailError]
  · unfold solveWithFailover initialFailoverState
    rw [solveLoop_fail_step _ now 5 (⟨1, 0, none⟩ : FailoverState)
      ([] : List (Nat × Nat)) none (extractFailError raw) (by simp)
      (by simp) (extract_error_retryable raw)]
    rw [show advanceFailover now (⟨1, 0, none⟩ : FailoverState) =
        (⟨1, 1, some now⟩ : FailoverState) from by
      simp [advanceFailover, FAILOVER_CONFIG]]
    rw [show ([] : List (Nat × Nat)) ++
        [providerAt (⟨1, 0, none⟩ : FailoverState)] = [(1, 0)] from by
      simp [providerAt]]
    rw [show solveLoop
        (fun k => if k = 0 then Outcome.failure (extractFailError raw)
          else Outcome.success "XYZ9") now 5
        (⟨1, 1, some now⟩ : FailoverState) [(1, 0)]
        (some (extractFailError raw)) =
        (SolveResult.ok "XYZ9", (⟨1, 1, some now⟩ : FailoverState),
          [(1, 0)] ++ [(1, 1)]) from by
      simp [solveLoop, providerAt]]
    rfl

/-- C8 witness: `"A!B"` cleans to `"AB"` (length 2), fails with the
`Failed to extract` error, and the loop then succeeds at provider
`(1, 1)`. -/
theorem cleanCaptchaText_spec_witness :
    cleanCaptchaText "  AB12!! " = Except.ok "AB12"
    ∧ cleanCaptchaText "A!B" = Except.error (extractFailError "A!B")
    ∧ shouldFailover (extractFailError "A!B").statusCode
        (extractFailError "A!B") = true
    ∧ solveWithFailover
        (fun k => if k = 0 then Outcome.failure (extractFailError "A!B")
          else Outcome.success "XYZ9") 5 initialFailoverState =
      (SolveResult.ok "XYZ9", ⟨1, 1, some 5⟩, [(1, 0), (1, 1)]) :=
  cleanCaptchaText_spec "A!B" 5 (by decide)

/-- Reading back the key just written into a JavaScript object returns
the written value. -/
theorem jsObjGet_set (c : List (String × String)) (k v : String) :
    jsObjGet (jsObjSet c k v) k = some v := by
  induction c with
  | nil => simp [jsObjGet, jsObjSet]
  | cons p ps ih =>
    by_cases h : (p.1 == k) = true
    · simp [jsObjSet, h, jsObjGet]
    · simp only [jsObjSet, h, if_false, Bool.false_eq_true]
      simp only [jsObjGet, List.find?] at ih ⊢
      rw [show (p.1 == k) = false from by simpa using h]
      exact ih

/-- C6 counterexample: two identical `solve_captcha` requests with no
confirmation in between.  The first succeeds (tier 2, engine called
once, result `"ZXCV"` held as pending candidate), yet the second request
misses the cache, calls an engine again (1 invocation, not 0) and
answers with the tier tag `"T2"`, not the `"⚡ Cached"` tag — because
`background.js` only commits the cache on `report_login_success`. -/
theorem cached_second_request_counterexample :
    (bgHandleSolveCaptcha "" (fun _ => BgOutcome.success "ZXCV") "img"
        bgInitialState).1 = BgResponse.ok "ZXCV" "T2"
    ∧ (bgHandleSolveCaptcha "" (fun _ => BgOutcome.success "ZXCV") "img"
        ((bgHandleSolveCaptcha "" (fun _ => BgOutcome.success "ZXCV") "img"
          bgInitialState).2.1)).2.2 = 1
    ∧ (bgHandleSolveCaptcha "" (fun _ => BgOutcome.success "ZXCV") "img"
        ((bgHandleSolveCaptcha "" (fun _ => BgOutcome.success "ZXCV") "img"
          bgInitialState).2.1)).1 = BgResponse.ok "ZXCV" "T2" := by
  refine ⟨by decide, by decide, by decide⟩

/-- C6 (amended): when the first request's pending result has been
committed by the confirmation signal (`report_login_success`), a second
request with the same fingerprint answers the cached text with the
`⚡ Cached` status tag and performs zero engine invocations. -/
theorem cached_second_request_after_confirm (img text : String)
    (s : BgState) (hpending : s.lastSolved = some (jsHash img, text))
    (htext : text ≠ "") (nopechaKey : String) (oracle : Nat → BgOutcome) :
    bgHandleSolveCaptcha nopechaKey oracle img (bgHandleLoginSuccess s) =
      (BgResponse.ok text "⚡ Cached", bgHandleLoginSuccess s, 0) := by
  unfold bgHandleLoginSuccess
  rw [hpending]
  simp only [bgHandleSolveCaptcha, jsObjGet_set]
  simp [htext]

/-- C6 witness for the amended claim: solve, confirm, solve again on the
same image answers from the cache with zero engine calls. -/
theorem cached_second_request_after_confirm_witness :
    bgHandleSolveCaptcha "" (fun _ => BgOutcome.success "ZXCV") "img"
      (bgHandleLoginSuccess ⟨2, some (jsHash "img", "ZXCV"), []⟩) =
      (BgResponse.ok "ZXCV" "⚡ Cached",
        bgHandleLoginSuccess ⟨2, some (jsHash "img", "ZXCV"), []⟩, 0) :=
  cached_second_request_after_confirm "img" "ZXCV"
    ⟨2, some (jsHash "img", "ZXCV"), []⟩ rfl (by decide) ""
    (fun _ => BgOutcome.success "ZXCV")

/-- `runSolve` never touches the durable cache, whatever tier it starts
at and whatever the engines answer. -/
theorem bgRunSolve_cache_const (nopechaKey : String)
    (oracle : Nat → BgOutcome) (imgHash : String) :
    ∀ fuel s k,
      (bgRunSolve nopechaKey oracle imgHash fuel s k).2.1.cache =
        s.cache := by
  intro fuel
  induction fuel with
  | zero => intro s k; rfl
  | succ n ih =>
    intro s k
    simp only [bgRunSolve]
    by_cases h1 : (s.currentTier == 1) = true
    · rw [if_pos h1]
      by_cases h2 : (nopechaKey == "") = true
      · rw [if_pos h2]
        exact ih _ k
      · rw [if_neg h2]
        cases ho : oracle k <;> simp [ho]
    · rw [if_neg h1]
      by_cases h3 : (s.currentTier == 2) = true
      · rw [if_pos h3]
        cases ho : oracle k with
        | success r => simp [ho]
        | failure m => cases ho2 : oracle (k + 1) <;> simp [ho, ho2]
      · rw [if_neg h3]
        cases ho : oracle k <;> simp [ho]

/-- When `runSolve` answers with a recognized text, the pending slot
holds exactly the fingerprint of this request paired with that text —
overwriting whatever candidate was held before. -/
theorem bgRunSolve_ok_lastSolved (nopechaKey : String)
    (oracle : Nat → BgOutcome) (imgHash : String) :
    ∀ fuel s k r st,
      (bgRunSolve nopechaKey oracle imgHash fuel s k).1 =
        BgResponse.ok r st →
      (bgRunSolve nopechaKey oracle imgHash fuel s k).2.1.lastSolved =
        some (imgHash, r) := by
  intro fuel
  induction fuel with
  | zero =>
    intro s k r st h
    simp [bgRunSolve] at h
  | succ n ih =>
    intro s k r st h
    simp only [bgRunSolve] at h ⊢
    by_cases h1 : (s.currentTier == 1) = true
    · rw [if_pos h1] at h ⊢
      by_cases h2 : (nopechaKey == "") = true
      · rw [if_pos h2] at h ⊢
        exact ih _ k r st h
      · rw [if_neg h2] at h ⊢
        cases ho : oracle k with
        | success r2 => rw [ho] at h; simp at h ⊢; simp [h]
        | failure m => rw [ho] at h; simp at h
    · rw [if_neg h1] at h ⊢
      by_cases h3 : (s.currentTier == 2) = true
      · rw [if_pos h3] at h ⊢
        cases ho : oracle k with
        | success r2 => rw [ho] at h; simp at h ⊢; simp [h]
        | failure m =>
          rw [ho] at h
          cases ho2 : oracle (k + 1) with
          | success r2 => rw [ho2] at h; simp at h ⊢; simp [h]
          | failure m2 => rw [ho2] at h; simp at h
      · rw [if_neg h3] at h ⊢
        cases ho : oracle k with
        | success r2 => rw [ho] at h; simp at h ⊢; simp [h]
        | failure m => rw [ho] at h; simp at h

/-- C9: the pending candidate is a single slot.  A `solve_captcha`
request never writes the durable cache; when it succeeds (other than
from the cache), the slot is overwritten with the new fingerprint/text
pair; the `report_login_success` confirmation alone commits the held
pair into the durable cache, clearing the slot, and is a no-op when no
candidate is held. -/
theorem pending_candidate_single_slot (s : BgState)
    (nopechaKey img : String) (oracle : Nat → BgOutcome) :
    ((bgHandleSolveCaptcha nopechaKey oracle img s).2.1.cache = s.cache)
    ∧ (∀ r st,
        (bgHandleSolveCaptcha nopechaKey oracle img s).1 =
          BgResponse.ok r st →
        st ≠ "⚡ Cached" →
        (bgHandleSolveCaptcha nopechaKey oracle img s).2.1.lastSolved =
          some (jsHash img, r))
    ∧ (∀ h t, s.lastSolved = some (h, t) →
        bgHandleLoginSuccess s =
          { s with cache := jsObjSet s.cache h t, lastSolved := none })
    ∧ (s.lastSolved = none → bgHandleLoginSuccess s = s) := by
  refine ⟨?_, ?_, ?_, ?_⟩
  · simp only [bgHandleSolveCaptcha]
    cases hg : jsObjGet s.cache (jsHash img) with
    | some t =>
      dsimp only
      by_cases ht : (t == "") = true
      · rw [if_pos ht]
        exact bgRunSolve_cache_const nopechaKey oracle (jsHash img) 2 s 0
      · rw [if_neg ht]
    | none =>
      exact bgRunSolve_cache_const nopechaKey oracle (jsHash img) 2 s 0
  · intro r st h hst
    simp only [bgHandleSolveCaptcha] at h ⊢
    cases hg : jsObjGet s.cache (jsHash img) with
    | some t =>
      rw [hg] at h
      dsimp only at h ⊢
      by_cases ht : (t == "") = true
      · rw [if_pos ht] at h ⊢
        exact bgRunSolve_ok_lastSolved nopechaKey oracle (jsHash img) 2 s 0 r st h
      · rw [if_neg ht] at h ⊢
        simp at h
        exact absurd h.2.symm hst
    | none =>
      rw [hg] at h
      exact bgRunSolve_ok_lastSolved nopechaKey oracle (jsHash img) 2 s 0 r st h
  · intro h t hp
    simp [bgHandleLoginSuccess, hp]
  · intro hp
    simp [bgHandleLoginSuccess, hp]

/-- C9 witness: starting at tier 2 with an old pending candidate, a
successful solve replaces the slot with the new pair and leaves the
cache alone; confirming commits and clears; confirming again is a
no-op. -/
theorem pending_candidate_single_slot_witness :
    ((bgHandleSolveCaptcha "" (fun _ => BgOutcome.success "NEW1")
        "img" ⟨2, some ("oldhash", "OLD1"), []⟩).2.1.cache =
      (⟨2, some ("oldhash", "OLD1"), []⟩ : BgState).cache)
    ∧ (∀ r st,
        (bgHandleSolveCaptcha "" (fun _ => BgOutcome.success "NEW1")
          "img" ⟨2, some ("oldhash", "OLD1"), []⟩).1 =
          BgResponse.ok r st →
        st ≠ "⚡ Cached" →
        (bgHandleSolveCaptcha "" (fun _ => BgOutcome.success "NEW1")
          "img" ⟨2, some ("oldhash", "OLD1"), []⟩).2.1.lastSolved =
          some (jsHash "img", r))
    ∧ (∀ h t,
        (⟨2, some ("oldhash", "OLD1"), []⟩ : BgState).lastSolved =
          some (h, t) →
        bgHandleLoginSuccess ⟨2, some ("oldhash", "OLD1"), []⟩ =
          { (⟨2, some ("oldhash", "OLD1"), []⟩ : BgState) with
            cache := jsObjSet [] h t, lastSolved := none })
    ∧ ((⟨2, some ("oldhash", "OLD1"), []⟩ : BgState).lastSolved = none →
        bgHandleLoginSuccess ⟨2, some ("oldhash", "OLD1"), []⟩ =
          ⟨2, some ("oldhash", "OLD1"), []⟩) :=
  pending_candidate_single_slot ⟨2, some ("oldhash", "OLD1"), []⟩ ""
    "img" (fun _ => BgOutcome.success "NEW1")
